import Mathlib

/-!
Verification of the gateway reliability layer of the workboard-training
backend: the exponential-backoff retry utility
(`api-gateway/src/common/utils/retry.util.ts`), the in-memory idempotency
store (`events-service/src/common/services/idempotency.service.ts`), the
correlation-id interceptor
(`api-gateway/src/common/interceptors/correlation-id.interceptor.ts`), and
their composition in the gateway's `EventsController.create` together with
the events-service message handler.

Conventions of the embedding: JavaScript exceptions become `Except`,
`undefined`-able values become `Option`, a JS `Map` becomes an association
list with first-match lookup, and wall-clock instants (`Date.now()`) become
explicit `Int` parameters.  Each definition carries the name of the source
function it translates.
-/

deriving instance DecidableEq for Except

namespace Workboard

/-! ### Failures and the retry utility (retry.util.ts) -/

/-- The shape of the error objects the retry utility inspects: a Node
socket error carries a string `code` (e.g. `ECONNREFUSED`), an upstream
HTTP-style error carries a numeric `status`; either field may be absent. -/
structure JsError where
  code : Option String := none
  status : Option Nat := none
deriving DecidableEq, Repr

/-- `RetryConfig` from retry.util.ts, with the source's default values. -/
structure RetryConfig where
  maxAttempts : Nat := 3
  delayMs : Nat := 1000
  backoffMultiplier : Nat := 2
  retryableErrors : List String := ["ECONNREFUSED", "ETIMEDOUT", "ENOTFOUND"]
deriving DecidableEq, Repr

/-- The classifier inside `retryWithBackoff`:
`retryableErrors.some((code) => error.code === code) || error.status === 503
|| error.status === 504`. -/
def isRetryable (cfg : RetryConfig) (e : JsError) : Bool :=
  cfg.retryableErrors.any (fun c => e.code = some c) ||
    e.status = some 503 || e.status = some 504

/-- Observable outcome of one run of the retry pipeline: the final result,
how many times the source was subscribed (= invocations of the wrapped
operation), and the list of backoff delays slept between attempts. -/
structure RetryOutcome (α : Type) where
  result : Except JsError α
  invocations : Nat
  delays : List Nat
deriving DecidableEq, Repr

/-- The `retryWhen`/`mergeMap` loop of `retryWithBackoff`.  `op k` is the
outcome of the (k+1)-th subscription of the source observable; `index` is
rxjs's zero-based error index (so `attempt = index + 1`).  The source loop
terminates through the `attempt >= maxAttempts` test; `fuel` is an upper
bound on the remaining resubscriptions that makes the recursion structural,
and the wrapper `retryWithBackoff` passes enough fuel that the `fuel = 0`
branch is unreachable. -/
def retryFrom {α : Type} (cfg : RetryConfig) (op : Nat → Except JsError α)
    (fuel index : Nat) : RetryOutcome α :=
  match op index with
  | .ok v => ⟨.ok v, 1, []⟩
  | .error e =>
    if cfg.maxAttempts ≤ index + 1 ∨ isRetryable cfg e = false then
      ⟨.error e, 1, []⟩
    else
      match fuel with
      | 0 => ⟨.error e, 1, []⟩
      | fuel' + 1 =>
        let rest := retryFrom cfg op fuel' (index + 1)
        ⟨rest.result, rest.invocations + 1,
          cfg.delayMs * cfg.backoffMultiplier ^ index :: rest.delays⟩

/-- `retryWithBackoff(config)` applied to a source observable whose k-th
subscription yields `op k`. -/
def retryWithBackoff {α : Type} (cfg : RetryConfig)
    (op : Nat → Except JsError α) : RetryOutcome α :=
  retryFrom cfg op cfg.maxAttempts 0

/-! ### The rxjs timeout operator -/

/-- The error thrown by the rxjs `timeout(ms)` operator.  An rxjs
`TimeoutError` carries `name` and `message` but neither a Node socket
`code` nor an HTTP `status` field, so both are absent. -/
def timeoutError : JsError := { code := none, status := none }

/-- One attempt of `source.pipe(timeout(timeoutMs))`: if the round trip
takes longer than the deadline the attempt errors with `timeoutError`,
otherwise the backend's own response (success or failure) comes through. -/
def callWithTimeout {α : Type} (roundTripMs timeoutMs : Nat)
    (response : Except JsError α) : Except JsError α :=
  if timeoutMs < roundTripMs then .error timeoutError else response

/-! ### The idempotency store (idempotency.service.ts) -/

/-- `ttlMs = 24 * 60 * 60 * 1000` — the fixed 24-hour retention window. -/
def ttlMs : Int := 24 * 60 * 60 * 1000

/-- `IdempotencyRecord` from idempotency.service.ts.  `response` is the
stored success value, `timestamp` the `Date.now()` at which it was
stored. -/
structure IdemRecord (α : Type) where
  key : String
  response : α
  timestamp : Int
deriving DecidableEq, Repr

/-- The `Map<string, IdempotencyRecord>` cache, as an association list.
Keys are unique in a JS `Map`; lookup takes the first match. -/
abbrev IdemCache (α : Type) := List (String × IdemRecord α)

/-- `Map.get`: the value stored under `k`, if any. -/
def mapGet {β : Type} : List (String × β) → String → Option β
  | [], _ => none
  | (k', v) :: rest, k => if k' = k then some v else mapGet rest k

/-- `Map.set`: update the entry for `k` in place if present, else append. -/
def mapSet {β : Type} : List (String × β) → String → β → List (String × β)
  | [], k, v => [(k, v)]
  | (k', v') :: rest, k, v =>
    if k' = k then (k, v) :: rest else (k', v') :: mapSet rest k v

/-- `Map.delete`: drop the entries stored under `k`. -/
def mapDelete {β : Type} (m : List (String × β)) (k : String) :
    List (String × β) :=
  m.filter (fun p => ¬ p.1 = k)

/-- `cleanupExpired`: delete every record whose age strictly exceeds the
TTL (`now - record.timestamp > this.ttlMs`). -/
def cleanupExpired {α : Type} (now : Int) (cache : IdemCache α) :
    IdemCache α :=
  cache.filter (fun p => ¬ (ttlMs < now - p.2.timestamp))

/-- Observable outcome of one `checkAndStore` call: the returned (or
thrown) value, the cache state afterwards, and how many times the wrapped
`operation` was invoked (0 or 1). -/
structure IdemOutcome (α : Type) where
  result : Except JsError α
  cache : IdemCache α
  opCalls : Nat
deriving Repr

/-- The tail of `checkAndStore` after a cache miss (or after discarding an
expired record): invoke the operation; on success store the result under
`key` with the current timestamp and then sweep expired records; a thrown
failure propagates with nothing stored and no sweep. -/
def runAndStore {α : Type} (cache : IdemCache α) (now : Int) (k : String)
    (op : Except JsError α) : IdemOutcome α :=
  match op with
  | .error e => ⟨.error e, cache, 1⟩
  | .ok v => ⟨.ok v, cleanupExpired now (mapSet cache k ⟨k, v, now⟩), 1⟩

/-- `IdempotencyService.checkAndStore(key, operation)` at instant `now`.
The JS guard `if (!key)` treats both `undefined` and the empty string as
"no key".  On a stored record: a strict `age < ttlMs` is a hit returning
the stored response without invoking the operation; otherwise the stale
record is deleted and the call proceeds as a miss. -/
def checkAndStore {α : Type} (cache : IdemCache α) (now : Int)
    (key : Option String) (op : Except JsError α) : IdemOutcome α :=
  match key with
  | none => ⟨op, cache, 1⟩
  | some k =>
    if k.isEmpty then ⟨op, cache, 1⟩
    else
      match mapGet cache k with
      | some existing =>
        if now - existing.timestamp < ttlMs then
          ⟨.ok existing.response, cache, 0⟩
        else
          runAndStore (mapDelete cache k) now k op
      | none => runAndStore cache now k op

/-! ### Correlation id (correlation-id.interceptor.ts) -/

/-- An inbound HTTP request: its header bag and the `correlationId`
property the interceptor attaches (absent before interception). -/
structure HttpRequest where
  headers : List (String × String)
  correlationId : Option String := none
deriving DecidableEq, Repr

/-- Case-exact header lookup, first match. -/
def headerLookup (headers : List (String × String)) (name : String) :
    Option String :=
  (headers.find? (fun p => p.1 = name)).map (fun p => p.2)

/-- Result of `CorrelationIdInterceptor.intercept`: the request with
`request.correlationId` set, and the value written to the
`X-Correlation-ID` response header. -/
structure InterceptResult where
  request : HttpRequest
  responseHeader : String
deriving DecidableEq, Repr

/-- `CorrelationIdInterceptor.intercept`: the resolved id is
`request.headers['x-correlation-id'] || randomUUID()` — the inbound header
value when it is present and non-empty (JS truthiness), else a fresh
`randomUUID()` draw, supplied here as the parameter `generated`.  The same
value is stored on the request and set as the response header. -/
def intercept (req : HttpRequest) (generated : String) : InterceptResult :=
  let cid :=
    match headerLookup req.headers "x-correlation-id" with
    | some s => if s.isEmpty then generated else s
    | none => generated
  ⟨{ req with correlationId := some cid }, cid⟩

/-- The payload the gateway's `EventsController.create` sends to the
events-service over TCP. -/
structure CreatePayload where
  dto : String
  userId : String
  organizationId : String
  correlationId : Option String
  idempotencyKey : Option String
deriving DecidableEq, Repr

/-- The payload construction inside the gateway's
`EventsController.create`: `correlationId: req.correlationId` together
with the dto, user fields and the forwarded `idempotency-key` header. -/
def createPayload (req : HttpRequest) (dto userId orgId : String)
    (key : Option String) : CreatePayload :=
  ⟨dto, userId, orgId, req.correlationId, key⟩

/-! ### Gateway create composed with the events-service handler -/

/-- Observable outcome of one gateway `POST /events` call:
`remoteCalls` counts TCP sends from the gateway to the events-service
(one per subscription of the retry pipeline), `opCalls` counts invocations
of the underlying `eventsService.create`. -/
structure GatewayCreateOutcome (α : Type) where
  result : Except JsError α
  remoteCalls : Nat
  opCalls : Nat
  cache : IdemCache α
deriving Repr

/-- The gateway's `EventsController.create` composed with the
events-service `events.create` handler.  The handler runs
`idempotencyService.checkAndStore(idempotencyKey, () =>
eventsService.create(...))` on the service side; the gateway wraps the TCP
send in `timeout(10000)` and `retryWithBackoff({ maxAttempts: 1 })`.  With
`maxAttempts = 1` the pipeline subscribes exactly once, so reusing the
single server response for the attempt function is exact.  Note the server
executes (and may store) even when the gateway's deadline fires — the
round trip being abandoned does not undo the handler's work. -/
def eventsCreateViaGateway {α : Type} (cache : IdemCache α) (now : Int)
    (idempotencyKey : Option String) (op : Except JsError α)
    (roundTripMs : Nat) : GatewayCreateOutcome α :=
  let server := checkAndStore cache now idempotencyKey op
  let attempt : Nat → Except JsError α :=
    fun _ => callWithTimeout roundTripMs 10000 server.result
  let retried := retryWithBackoff { maxAttempts := 1 } attempt
  ⟨retried.result, retried.invocations, server.opCalls, server.cache⟩

/-! ### Helper lemmas about the map model -/

lemma mapGet_mapDelete_self {β : Type} (m : List (String × β)) (k : String) :
    mapGet (mapDelete m k) k = none := by
  induction m with
  | nil => rfl
  | cons p rest ih =>
    by_cases h : p.1 = k
    · simpa [mapDelete, List.filter_cons, h] using ih
    · simpa [mapDelete, List.filter_cons, h, mapGet] using ih

lemma mem_of_mapGet_eq_some {β : Type} {m : List (String × β)} {k : String}
    {v : β} (h : mapGet m k = some v) : (k, v) ∈ m := by
  induction m with
  | nil => simp [mapGet] at h
  | cons p rest ih =>
    obtain ⟨p1, p2⟩ := p
    rw [mapGet] at h
    by_cases hk : p1 = k
    · rw [if_pos hk] at h
      injection h with h
      subst hk
      subst h
      exact List.mem_cons_self _ _
    · rw [if_neg hk] at h
      exact List.mem_cons_of_mem _ (ih h)

lemma mapGet_cleanupExpired_mapSet {α : Type} (m : IdemCache α) (k : String)
    (r : IdemRecord α) (now : Int) (h : ¬ ttlMs < now - r.timestamp) :
    mapGet (cleanupExpired now (mapSet m k r)) k = some r := by
  have h' : now ≤ ttlMs + r.timestamp := by omega
  induction m with
  | nil => simp [mapSet, cleanupExpired, List.filter_cons, h', mapGet]
  | cons p rest ih =>
    obtain ⟨p1, p2⟩ := p
    by_cases hk : p1 = k
    · simp [mapSet, hk, cleanupExpired, List.filter_cons, h', mapGet]
    · by_cases hkeep : now ≤ ttlMs + p2.timestamp
      · simpa [mapSet, hk, cleanupExpired, List.filter_cons, hkeep, mapGet]
          using ih
      · simpa [mapSet, hk, cleanupExpired, List.filter_cons, hkeep, mapGet]
          using ih

/-! ### Helper lemmas about the retry loop -/

lemma retryFrom_all_fail {α : Type} (cfg : RetryConfig)
    (op : Nat → Except JsError α) (e : Nat → JsError)
    (hop : ∀ k, op k = .error (e k))
    (hretry : ∀ k, isRetryable cfg (e k) = true) :
    ∀ fuel index, index < cfg.maxAttempts → cfg.maxAttempts ≤ index + fuel →
      retryFrom cfg op fuel index =
        ⟨.error (e (cfg.maxAttempts - 1)), cfg.maxAttempts - index,
          (List.range' index (cfg.maxAttempts - 1 - index)).map
            (fun i => cfg.delayMs * cfg.backoffMultiplier ^ i)⟩ := by
  intro fuel
  induction fuel with
  | zero => intro index h1 h2; omega
  | succ f ih =>
    intro index h1 h2
    rw [retryFrom.eq_def, hop index]
    simp only
    by_cases hlast : cfg.maxAttempts ≤ index + 1
    · rw [if_pos (Or.inl hlast)]
      have hone : cfg.maxAttempts - index = 1 := by omega
      have hzero : cfg.maxAttempts - 1 - index = 0 := by omega
      have hidx : cfg.maxAttempts - 1 = index := by omega
      rw [hone, hzero, hidx]
      simp
    · have hcond :
          ¬ (cfg.maxAttempts ≤ index + 1 ∨ isRetryable cfg (e index) = false) := by
        push_neg
        exact ⟨by omega, by simp [hretry index]⟩
      rw [if_neg hcond]
      simp only [ih (index + 1) (by omega) (by omega)]
      have hlen : cfg.maxAttempts - 1 - index =
          (cfg.maxAttempts - 1 - (index + 1)) + 1 := by omega
      have hinv : cfg.maxAttempts - (index + 1) + 1 = cfg.maxAttempts - index := by
        omega
      rw [hlen, List.range'_succ]
      simp [hinv]

/-! ### Claim C4: retry exhaustion -/

/-- C4: with `maxAttempts = n` and every attempt failing with a code the
policy classifies retryable, exactly `n` invocations of the operation
occur, the delay slept before the (k+1)-th attempt is
`delayMs * backoffMultiplier ^ (k-1)`, and the failure finally propagated
is the failure of the last (n-th) attempt. -/
theorem retry_exhaustion {α : Type} (cfg : RetryConfig)
    (op : Nat → Except JsError α) (e : Nat → JsError)
    (hop : ∀ k, op k = .error (e k))
    (hretry : ∀ k, isRetryable cfg (e k) = true)
    (hn : 1 ≤ cfg.maxAttempts) :
    (retryWithBackoff cfg op).invocations = cfg.maxAttempts ∧
    (retryWithBackoff cfg op).result = .error (e (cfg.maxAttempts - 1)) ∧
    (retryWithBackoff cfg op).delays =
      (List.range (cfg.maxAttempts - 1)).map
        (fun i => cfg.delayMs * cfg.backoffMultiplier ^ i) ∧
    ∀ k, 1 ≤ k → k < cfg.maxAttempts →
      (retryWithBackoff cfg op).delays[k - 1]? =
        some (cfg.delayMs * cfg.backoffMultiplier ^ (k - 1)) := by
  have h := retryFrom_all_fail cfg op e hop hretry cfg.maxAttempts 0
    (by omega) (by omega)
  rw [retryWithBackoff, h]
  refine ⟨rfl, rfl, ?_, ?_⟩
  · simp [List.range_eq_range']
  · intro k hk1 hk2
    have hlt : k - 1 < cfg.maxAttempts - 1 - 0 := by omega
    have hg := List.getElem?_range' 0 1 hlt
    simp only [List.getElem?_map, hg, Option.map_some']
    simp

/-- Witness for `retry_exhaustion` at the source's default configuration
(3 attempts, base delay 1000, multiplier 2) and a connection-refused
failure on every attempt. -/
theorem retry_exhaustion_witness :
    (retryWithBackoff { }
        (fun _ => Except.error ⟨some "ECONNREFUSED", none⟩) :
      RetryOutcome Nat).invocations = 3 ∧
    (retryWithBackoff { }
        (fun _ => Except.error ⟨some "ECONNREFUSED", none⟩) :
      RetryOutcome Nat).delays = [1000, 2000] := by
  have hr : isRetryable { } (⟨some "ECONNREFUSED", none⟩ : JsError) = true := by
    decide
  exact ⟨(retry_exhaustion { }
      (fun _ => Except.error ⟨some "ECONNREFUSED", none⟩)
      (fun _ => ⟨some "ECONNREFUSED", none⟩)
      (fun _ => rfl) (fun _ => hr) (by decide)).1, by decide⟩

/-! ### Claim C5: the retryability classifier -/

/-- C5: a failure is classified retryable iff its code belongs to the
configured `retryableErrors` set or its upstream status is 503
(service unavailable) or 504 (gateway timeout); the two status conditions
are retryable under every configuration. -/
theorem retryable_classification (cfg : RetryConfig) (e : JsError) :
    (isRetryable cfg e = true ↔
      ((∃ c ∈ cfg.retryableErrors, e.code = some c) ∨
        e.status = some 503 ∨ e.status = some 504)) ∧
    ((e.status = some 503 ∨ e.status = some 504) →
      ∀ cfg' : RetryConfig, isRetryable cfg' e = true) := by
  constructor
  · simp [isRetryable, List.any_eq_true, or_assoc]
  · rintro (h | h) cfg' <;> simp [isRetryable, h]

/-- Witness for `retryable_classification`: a 503 failure is retryable
even under a configuration whose retryable-code set is empty. -/
theorem retryable_classification_witness :
    isRetryable { retryableErrors := [] } ⟨none, some 503⟩ = true :=
  (retryable_classification { retryableErrors := [] } ⟨none, some 503⟩).2
    (Or.inl rfl) { retryableErrors := [] }

/-! ### Claim C7: non-retryable failures fail fast -/

/-- C7: a failure on the first attempt that the classifier rejects
produces exactly one invocation, an empty delay list, and immediate
propagation of that failure, for every configuration however large its
`maxAttempts`. -/
theorem nonretryable_fails_fast {α : Type} (cfg : RetryConfig)
    (op : Nat → Except JsError α) (e : JsError)
    (hop : op 0 = .error e) (hnr : isRetryable cfg e = false) :
    retryWithBackoff cfg op = ⟨.error e, 1, []⟩ := by
  rw [retryWithBackoff, retryFrom.eq_def, hop]
  simp [hnr]

/-- Witness for `nonretryable_fails_fast`: a bad-file-descriptor failure
under a 5-attempt policy is propagated after a single invocation. -/
theorem nonretryable_fails_fast_witness :
    retryWithBackoff { maxAttempts := 5 }
        (fun _ => Except.error ⟨some "EBADF", none⟩) =
      (⟨Except.error ⟨some "EBADF", none⟩, 1, []⟩ : RetryOutcome Nat) :=
  nonretryable_fails_fast { maxAttempts := 5 } _ ⟨some "EBADF", none⟩ rfl
    (by decide)

/-! ### Claim C2: classification of the deadline-exceeded failure -/

/-- C2 counterexample: under the default configuration (3 attempts, so
attempts remain after the first) the deadline-exceeded failure produced by
the rxjs timeout operator is classified NOT retryable — it carries neither
a code in `retryableErrors` nor a 503/504 status — so the call is not
retried: a single invocation occurs and the timeout failure propagates. -/
theorem timeout_default_not_retried_cex :
    (1 : Nat) < RetryConfig.maxAttempts { } ∧
    isRetryable { } timeoutError = false ∧
    retryWithBackoff { }
        (fun _ => callWithTimeout 20000 10000 (Except.ok (0 : Nat))) =
      ⟨Except.error timeoutError, 1, []⟩ := by
  refine ⟨by decide, by decide, by decide⟩

/-- C2 amended: a deadline-exceeded failure is not one of the two
always-retryable conditions (those are upstream statuses 503 and 504); the
rxjs `TimeoutError` carries no code and no status, so no configuration
classifies it retryable, and a call timing out on its first attempt is
propagated after exactly one invocation with no delay. -/
theorem timeout_never_retryable {α : Type} (cfg : RetryConfig)
    (op : Nat → Except JsError α) (hop : op 0 = .error timeoutError) :
    isRetryable cfg timeoutError = false ∧
    retryWithBackoff cfg op = ⟨.error timeoutError, 1, []⟩ := by
  have hnr : isRetryable cfg timeoutError = false := by
    simp [isRetryable, timeoutError]
  refine ⟨hnr, ?_⟩
  rw [retryWithBackoff, retryFrom.eq_def, hop]
  simp [hnr]

/-- Witness for `timeout_never_retryable`: a 20-second round trip against
the gateway's 10-second deadline, under the default configuration. -/
theorem timeout_never_retryable_witness :
    isRetryable { } timeoutError = false ∧
    retryWithBackoff { }
        (fun _ => callWithTimeout 20000 10000 (Except.ok (0 : Nat))) =
      ⟨Except.error timeoutError, 1, []⟩ :=
  timeout_never_retryable { } _ (by decide)

/-! ### Helper lemmas about checkAndStore -/

lemma runAndStore_opCalls {α : Type} (cache : IdemCache α) (now : Int)
    (k : String) (op : Except JsError α) :
    (runAndStore cache now k op).opCalls = 1 := by
  cases op <;> rfl

lemma checkAndStore_opCalls_of_miss {α : Type} (cache : IdemCache α)
    (now : Int) (k : String) (op : Except JsError α)
    (hk : k.isEmpty = false) (hmiss : mapGet cache k = none) :
    (checkAndStore cache now (some k) op).opCalls = 1 := by
  cases op <;> simp [checkAndStore, hk, hmiss, runAndStore]

lemma checkAndStore_hit {α : Type} (cache : IdemCache α) (now : Int)
    (k : String) (r : IdemRecord α) (op : Except JsError α)
    (hk : k.isEmpty = false) (hget : mapGet cache k = some r)
    (hage : now - r.timestamp < ttlMs) :
    checkAndStore cache now (some k) op = ⟨.ok r.response, cache, 0⟩ := by
  simp [checkAndStore, hk, hget, hage]

/-! ### Claim C3: idempotent replay within the retention window -/

/-- C3: a key stored by a first successful call and presented again while
the record's age is inside the 24-hour window makes the second call return
exactly the stored result of the first call without invoking the
underlying operation and without touching the store — for every second
operation `op2`, i.e. even when the second call's payload differs. -/
theorem idempotent_replay {α : Type} (cache : IdemCache α) (now1 now2 : Int)
    (k : String) (v : α) (op2 : Except JsError α)
    (hk : k.isEmpty = false) (hmiss : mapGet cache k = none)
    (hage : now2 - now1 < ttlMs) :
    (checkAndStore cache now1 (some k) (.ok v)).result = .ok v ∧
    (checkAndStore cache now1 (some k) (.ok v)).opCalls = 1 ∧
    checkAndStore ((checkAndStore cache now1 (some k) (.ok v)).cache) now2
        (some k) op2 =
      ⟨.ok v, (checkAndStore cache now1 (some k) (.ok v)).cache, 0⟩ := by
  have h1 : checkAndStore cache now1 (some k) (Except.ok v) =
      ⟨.ok v, cleanupExpired now1 (mapSet cache k ⟨k, v, now1⟩), 1⟩ := by
    simp [checkAndStore, hk, hmiss, runAndStore]
  have hget : mapGet (cleanupExpired now1 (mapSet cache k ⟨k, v, now1⟩)) k =
      some ⟨k, v, now1⟩ :=
    mapGet_cleanupExpired_mapSet cache k ⟨k, v, now1⟩ now1
      (by simp only [ttlMs]; omega)
  refine ⟨by rw [h1], by rw [h1], ?_⟩
  rw [h1]
  exact checkAndStore_hit _ now2 k ⟨k, v, now1⟩ op2 hk hget hage

/-- Witness for `idempotent_replay`: key `submit-42`, first call stores
the value 1 at instant 0; a second call 5 seconds later with a different
payload (an operation that would produce 2) replays the stored 1. -/
theorem idempotent_replay_witness :
    (checkAndStore ([] : IdemCache Nat) 0 (some "submit-42")
        (.ok 1)).result = .ok 1 ∧
    (checkAndStore ([] : IdemCache Nat) 0 (some "submit-42")
        (.ok 1)).opCalls = 1 ∧
    checkAndStore ((checkAndStore ([] : IdemCache Nat) 0 (some "submit-42")
        (.ok 1)).cache) 5000 (some "submit-42") (.ok 2) =
      ⟨.ok 1, (checkAndStore ([] : IdemCache Nat) 0 (some "submit-42")
        (.ok 1)).cache, 0⟩ :=
  idempotent_replay [] 0 5000 "submit-42" 1 (.ok 2) rfl rfl (by decide)

/-! ### Claim C9: the TTL boundary -/

/-- C9: a cache hit (the path returning the stored response without
invoking the operation) requires the record's age to be strictly below the
TTL; a record at exactly the TTL is expired on lookup — the operation is
invoked — yet the opportunistic sweep, which deletes only ages strictly
above the TTL, keeps that same record. -/
theorem ttl_boundary {α : Type} (cache : IdemCache α) (now : Int)
    (k : String) (r : IdemRecord α) (op : Except JsError α)
    (hk : k.isEmpty = false) (hget : mapGet cache k = some r) :
    ((checkAndStore cache now (some k) op).opCalls = 0 →
      now - r.timestamp < ttlMs ∧
      (checkAndStore cache now (some k) op).result = .ok r.response) ∧
    (now - r.timestamp = ttlMs →
      (checkAndStore cache now (some k) op).opCalls = 1 ∧
      (k, r) ∈ cleanupExpired now cache) := by
  constructor
  · intro h0
    by_cases hage : now - r.timestamp < ttlMs
    · exact ⟨hage, by rw [checkAndStore_hit cache now k r op hk hget hage]⟩
    · exfalso
      have h1 : (checkAndStore cache now (some k) op).opCalls = 1 := by
        simp only [checkAndStore, hk, Bool.false_eq_true, if_false, hget,
          if_neg hage]
        exact runAndStore_opCalls _ _ _ _
      omega
  · intro hage
    have hnot : ¬ now - r.timestamp < ttlMs := by omega
    constructor
    · simp only [checkAndStore, hk, Bool.false_eq_true, if_false, hget,
        if_neg hnot]
      exact runAndStore_opCalls _ _ _ _
    · refine List.mem_filter.mpr ⟨mem_of_mapGet_eq_some hget, ?_⟩
      simp [hage]

/-- Witness for `ttl_boundary`: a record stored at instant 0, looked up at
exactly the 24-hour mark — the operation runs again, and the sweep keeps
the boundary-aged record. -/
theorem ttl_boundary_witness :
    (checkAndStore ([("k", ⟨"k", 7, 0⟩)] : IdemCache Nat) ttlMs (some "k")
        (Except.ok 9)).opCalls = 1 ∧
    ("k", (⟨"k", 7, 0⟩ : IdemRecord Nat)) ∈
      cleanupExpired ttlMs [("k", ⟨"k", 7, 0⟩)] :=
  (ttl_boundary [("k", ⟨"k", 7, 0⟩)] ttlMs "k" ⟨"k", 7, 0⟩ (.ok 9) rfl
    rfl).2 (by decide)

/-! ### Claim C10: the empty-string key -/

/-- C10: a call whose idempotency key is the empty string takes the same
path as a call with no key at all — the JS falsy test does not distinguish
them — so the operation runs exactly once, its result is returned as is,
and the store is neither read nor written. -/
theorem empty_key_passthrough {α : Type} (cache : IdemCache α) (now : Int)
    (op : Except JsError α) :
    checkAndStore cache now (some "") op = checkAndStore cache now none op ∧
    checkAndStore cache now none op = ⟨op, cache, 1⟩ := by
  exact ⟨rfl, rfl⟩

/-! ### Claim C6: failures are not cached -/

/-- C6 counterexample: a keyed call that finds an expired record and whose
operation then fails DOES change the store — the stale record is deleted
before the operation runs — refuting the parenthetical "the store's state
is unchanged by the failed call".  Here the record for `k` is exactly at
the TTL (expired on lookup), the operation raises connection-refused, and
the cache goes from one entry to empty. -/
theorem failed_call_store_changed_cex :
    (checkAndStore ([("k", ⟨"k", 7, 0⟩)] : IdemCache Nat) ttlMs (some "k")
        (Except.error ⟨some "ECONNREFUSED", none⟩)).result =
      Except.error ⟨some "ECONNREFUSED", none⟩ ∧
    (checkAndStore ([("k", ⟨"k", 7, 0⟩)] : IdemCache Nat) ttlMs (some "k")
        (Except.error ⟨some "ECONNREFUSED", none⟩)).cache = [] ∧
    ¬ ((checkAndStore ([("k", ⟨"k", 7, 0⟩)] : IdemCache Nat) ttlMs (some "k")
        (Except.error ⟨some "ECONNREFUSED", none⟩)).cache =
      [("k", ⟨"k", 7, 0⟩)]) :=
  ⟨by decide, by decide, by decide⟩

/-- C6 amended: for every keyed call whose operation raises a failure, no
record is stored for that key — afterwards the key maps to nothing — the
failure propagates unchanged, and a subsequent call with the same key
re-invokes the operation; the store is either left unchanged (fresh miss)
or changed only by deleting the pre-existing expired record for that key,
which happens before the operation runs. -/
theorem failure_not_cached {α : Type} (cache : IdemCache α) (now : Int)
    (k : String) (e : JsError) (hk : k.isEmpty = false)
    (hmiss : mapGet cache k = none ∨
      ∃ r, mapGet cache k = some r ∧ ¬ now - r.timestamp < ttlMs) :
    (checkAndStore cache now (some k) (Except.error e)).result = .error e ∧
    (checkAndStore cache now (some k) (Except.error e)).opCalls = 1 ∧
    mapGet (checkAndStore cache now (some k) (Except.error e)).cache k =
      none ∧
    ((checkAndStore cache now (some k) (Except.error e)).cache = cache ∨
      (checkAndStore cache now (some k) (Except.error e)).cache =
        mapDelete cache k) ∧
    ∀ (op2 : Except JsError α) (now2 : Int),
      (checkAndStore (checkAndStore cache now (some k)
        (Except.error e)).cache now2 (some k) op2).opCalls = 1 := by
  rcases hmiss with hmiss | ⟨r, hget, hage⟩
  · have h1 : checkAndStore cache now (some k) (Except.error e) =
        ⟨.error e, cache, 1⟩ := by
      simp [checkAndStore, hk, hmiss, runAndStore]
    rw [h1]
    exact ⟨rfl, rfl, hmiss, Or.inl rfl,
      fun op2 now2 => checkAndStore_opCalls_of_miss _ _ _ _ hk hmiss⟩
  · have h1 : checkAndStore cache now (some k) (Except.error e) =
        ⟨.error e, mapDelete cache k, 1⟩ := by
      simp [checkAndStore, hk, hget, hage, runAndStore]
    rw [h1]
    exact ⟨rfl, rfl, mapGet_mapDelete_self cache k, Or.inr rfl,
      fun op2 now2 =>
        checkAndStore_opCalls_of_miss _ _ _ _ hk
          (mapGet_mapDelete_self cache k)⟩

/-- Witness for `failure_not_cached`: an unseen key whose operation fails
with connection-refused: nothing is stored, and a later call with the same
key invokes its operation again. -/
theorem failure_not_cached_witness :
    (checkAndStore ([] : IdemCache Nat) 0 (some "k")
        (Except.error ⟨some "ECONNREFUSED", none⟩)).opCalls = 1 ∧
    mapGet (checkAndStore ([] : IdemCache Nat) 0 (some "k")
        (Except.error ⟨some "ECONNREFUSED", none⟩)).cache "k" = none ∧
    (checkAndStore (checkAndStore ([] : IdemCache Nat) 0 (some "k")
        (Except.error ⟨some "ECONNREFUSED", none⟩)).cache 50 (some "k")
        (Except.ok (3 : Nat))).opCalls = 1 := by
  have h := failure_not_cached ([] : IdemCache Nat) 0 "k"
    ⟨some "ECONNREFUSED", none⟩ rfl (Or.inl rfl)
  exact ⟨h.2.1, h.2.2.1, h.2.2.2.2 (Except.ok 3) 50⟩

/-! ### Claim C1: what a cache hit bypasses -/

/-- C1 counterexample: a create call whose idempotency key hits a stored,
unexpired record still performs one remote call — the idempotency store
lives in the events-service behind the gateway's TCP send, inside the
timeout and retry pipeline — refuting "zero remote calls to the backend
service occur".  The underlying business operation is indeed skipped
(`opCalls = 0`) and the stored value 7 is returned, but `remoteCalls`
is 1, not 0. -/
theorem cache_hit_remote_call_cex :
    (eventsCreateViaGateway ([("k", ⟨"k", 7, 0⟩)] : IdemCache Nat) 5000
        (some "k") (Except.ok 99) 100).remoteCalls = 1 ∧
    (eventsCreateViaGateway ([("k", ⟨"k", 7, 0⟩)] : IdemCache Nat) 5000
        (some "k") (Except.ok 99) 100).opCalls = 0 ∧
    (eventsCreateViaGateway ([("k", ⟨"k", 7, 0⟩)] : IdemCache Nat) 5000
        (some "k") (Except.ok 99) 100).result = Except.ok 7 ∧
    ¬ ((eventsCreateViaGateway ([("k", ⟨"k", 7, 0⟩)] : IdemCache Nat) 5000
        (some "k") (Except.ok 99) 100).remoteCalls = 0) :=
  ⟨by decide, by decide, by decide, by decide⟩

/-- C1 amended: with an idempotency key present and a stored unexpired
record, the underlying business operation is not invoked and the stored
result is returned — but exactly one remote call from the gateway to the
events-service still occurs, wrapped in the timeout and the (single
attempt) retry pipeline, because the idempotency store sits server-side
inside the remote call rather than outside it; the store is unchanged. -/
theorem cache_hit_single_remote_call {α : Type} (cache : IdemCache α)
    (now : Int) (k : String) (r : IdemRecord α) (op : Except JsError α)
    (roundTripMs : Nat) (hk : k.isEmpty = false)
    (hget : mapGet cache k = some r) (hage : now - r.timestamp < ttlMs)
    (hrt : roundTripMs ≤ 10000) :
    eventsCreateViaGateway cache now (some k) op roundTripMs =
      ⟨.ok r.response, 1, 0, cache⟩ := by
  have hserver := checkAndStore_hit cache now k r op hk hget hage
  have hto : callWithTimeout roundTripMs 10000
      (Except.ok r.response : Except JsError α) = .ok r.response := by
    simp [callWithTimeout, Nat.not_lt.mpr hrt]
  simp [eventsCreateViaGateway, hserver, hto, retryWithBackoff, retryFrom]

/-- Witness for `cache_hit_single_remote_call`: the stored value 7 for key
`k` is replayed, with one remote call and zero operation invocations. -/
theorem cache_hit_single_remote_call_witness :
    eventsCreateViaGateway ([("k", ⟨"k", 7, 0⟩)] : IdemCache Nat) 5000
        (some "k") (Except.ok 99) 100 =
      ⟨Except.ok 7, 1, 0, [("k", ⟨"k", 7, 0⟩)]⟩ :=
  cache_hit_single_remote_call [("k", ⟨"k", 7, 0⟩)] 5000 "k" ⟨"k", 7, 0⟩
    (Except.ok 99) 100 rfl rfl (by decide) (by decide)

/-! ### Claim C8: correlation echo -/

/-- C8: the resolved correlation id — the inbound `x-correlation-id`
header when present and non-empty, otherwise the freshly generated id —
is the same value in the downstream call payload's metadata and in the
`X-Correlation-ID` response header returned to the caller. -/
theorem correlation_echo (req : HttpRequest)
    (generated dto userId orgId : String) (key : Option String) :
    (createPayload (intercept req generated).request dto userId orgId
        key).correlationId = some (intercept req generated).responseHeader ∧
    (∀ s, headerLookup req.headers "x-correlation-id" = some s →
      s.isEmpty = false → (intercept req generated).responseHeader = s) ∧
    (headerLookup req.headers "x-correlation-id" = none →
      (intercept req generated).responseHeader = generated) := by
  refine ⟨rfl, ?_, ?_⟩
  · intro s hs hne
    simp [intercept, hs, hne]
  · intro hnone
    simp [intercept, hnone]

/-- Witness for `correlation_echo`: an inbound header `abc` is used
verbatim and appears both in the downstream payload and in the response
header. -/
theorem correlation_echo_witness :
    (createPayload (intercept ⟨[("x-correlation-id", "abc")], none⟩
        "gen").request "d" "u" "o" none).correlationId =
      some (intercept ⟨[("x-correlation-id", "abc")], none⟩
        "gen").responseHeader ∧
    (intercept ⟨[("x-correlation-id", "abc")], none⟩
        "gen").responseHeader = "abc" := by
  have h := correlation_echo ⟨[("x-correlation-id", "abc")], none⟩ "gen"
    "d" "u" "o" none
  exact ⟨h.1, h.2.1 "abc" (by decide) rfl⟩

end Workboard
